import Mathlib

/-!
Shallow embedding of the CAN bus data-source acquisition engine
(aws-iot-fleetwise-edge): the data model of decoded CAN values
(src/src/datamanagement/types/include/CANDataTypes.h), the timestamp-type
parser and loop constants (src/src/vehiclenetwork/include/businterfaces/
CANDataSource.h), and the acquisition loop, gate, identity allocation and
lifecycle state machine.  Functions whose C++ implementation file is not in
the repository snapshot are modelled from the specification; each such
definition says so in its doc comment.
-/

namespace FleetWise

/-! ## Data model from CANDataTypes.h -/

/-- Modelled from the spec: SignalTypes.h is not in the snapshot; section 3
names the three value kinds of a physical value (64-bit unsigned, 64-bit
signed, floating-point). -/
inductive SignalType
  | UINT64
  | INT64
  | DOUBLE
deriving DecidableEq

/-- The C++ union CANPhysicalValue with members doubleVal, uint64Val and
int64Val (CANDataTypes.h lines 22-26), embedded as a sum recording which member was last
written.  The floating-point member is abstracted as an integer value: the
claims here concern only which member is stored, never float arithmetic. -/
inductive CANPhysicalValue
  | doubleVal (v : Int)
  | uint64Val (v : Nat)
  | int64Val (v : Int)
deriving DecidableEq

/-- The cast `static_cast<uint64_t>` of an integral value: two's-complement wrap into
`[0, 2^64)`. -/
def toUInt64cast (v : Int) : Nat :=
  (v % 2 ^ 64).toNat

/-- The cast `static_cast<int64_t>`: two's-complement wrap into `[-2^63, 2^63)`. -/
def toInt64cast (v : Int) : Int :=
  (v + 2 ^ 63) % 2 ^ 64 - 2 ^ 63

/-- The C++ `struct CANPhysicalValueType`: the union plus its kind tag
(CANDataTypes.h lines 28-55). -/
structure CANPhysicalValueType where
  signalValue : CANPhysicalValue
  signalType : SignalType
deriving DecidableEq

/-- The templated constructor `CANPhysicalValueType(T val, SignalType type)`
(CANDataTypes.h lines 33-48): it switches on the kind and writes the matching
union member, casting the incoming value; every kind other than UINT64 and
INT64 falls to the `default:` branch writing `doubleVal`. -/
def mkCANPhysicalValueType (val : Int) (type : SignalType) : CANPhysicalValueType :=
  { signalType := type
    signalValue :=
      match type with
      | SignalType.UINT64 => CANPhysicalValue.uint64Val (toUInt64cast val)
      | SignalType.INT64 => CANPhysicalValue.int64Val (toInt64cast val)
      | SignalType.DOUBLE => CANPhysicalValue.doubleVal val }

/-- The getter `CANPhysicalValueType::getType()` (CANDataTypes.h lines 50-54). -/
def CANPhysicalValueType.getType (p : CANPhysicalValueType) : SignalType :=
  p.signalType

/-- Which union member a `CANPhysicalValue` currently holds, expressed as the
kind that member corresponds to. -/
def memberKind : CANPhysicalValue → SignalType
  | CANPhysicalValue.doubleVal _ => SignalType.DOUBLE
  | CANPhysicalValue.uint64Val _ => SignalType.UINT64
  | CANPhysicalValue.int64Val _ => SignalType.INT64

/-- The C++ `struct CANDecodedSignal` (CANDataTypes.h lines 57-72): its constructor
takes the physical value and the signal-level kind as two independent
arguments and stores both verbatim — nothing ties them together. -/
structure CANDecodedSignal where
  mSignalID : Nat
  mRawValue : Int
  mPhysicalValue : CANPhysicalValueType
  mSignalType : SignalType
deriving DecidableEq

/-! ## CANDataSource.h: timestamp type and its parser -/

/-- The C++ `enum class CAN_TIMESTAMP_TYPE` (CANDataSource.h lines 26-33). -/
inductive CAN_TIMESTAMP_TYPE
  | KERNEL_SOFTWARE_TIMESTAMP
  | KERNEL_HARDWARE_TIMESTAMP
  | POLLING_TIME
deriving DecidableEq

/-- The function `stringToCanTimestampType` (CANDataSource.h lines 35-55).  The C++
function writes through an out-parameter and returns a Bool; embedded as
returning the pair (return value, final value of the out-parameter), where
the out-parameter keeps its incoming value whenever the function returns
false. -/
def stringToCanTimestampType (timestampType : String)
    (outTimestampType : CAN_TIMESTAMP_TYPE) : Bool × CAN_TIMESTAMP_TYPE :=
  if timestampType = "Software" then
    (true, CAN_TIMESTAMP_TYPE.KERNEL_SOFTWARE_TIMESTAMP)
  else if timestampType = "Hardware" then
    (true, CAN_TIMESTAMP_TYPE.KERNEL_HARDWARE_TIMESTAMP)
  else if timestampType = "Polling" then
    (true, CAN_TIMESTAMP_TYPE.POLLING_TIME)
  else
    (false, outTimestampType)

/-! ## CANDataSource.h: loop constants -/

/-- The constant `CANDataSource::PARALLEL_RECEIVED_FRAMES_FROM_KERNEL = 10`
(CANDataSource.h line 65): the per-wake batch bound of the acquisition
loop. -/
def PARALLEL_RECEIVED_FRAMES_FROM_KERNEL : Nat := 10

/-- The constant `CANDataSource::DEFAULT_THREAD_IDLE_TIME_MS = 1000`
(CANDataSource.h line 66). -/
def DEFAULT_THREAD_IDLE_TIME_MS : Nat := 1000

/-! ## Frame identifier extraction -/

/-- The wire-level extended-identifier flag bit (Linux CAN_EFF_FLAG). -/
def CAN_EFF_FLAG : Nat := 0x80000000

/-- Mask of the 29 identifier bits of an extended frame (Linux CAN_EFF_MASK). -/
def CAN_EFF_MASK : Nat := 0x1FFFFFFF

/-- Mask of the 11 identifier bits of a base frame (Linux CAN_SFF_MASK). -/
def CAN_SFF_MASK : Nat := 0x7FF

/-- Modelled from the spec: the frame-classification step of `doWork`
(CANDataSource.cpp is not in the snapshot).  Section 4.2 step 4: the numeric
identifier is extracted by masking off control bits; when the wire-level
extended-identifier flag is set, the top marker bit is set in the record
identifier. -/
def extractFrameId (can_id : Nat) : Nat :=
  if can_id &&& CAN_EFF_FLAG ≠ 0 then
    (can_id &&& CAN_EFF_MASK) ||| CAN_EFF_FLAG
  else
    can_id &&& CAN_SFF_MASK

/-! ## Timestamp strategy -/

/-- Modelled from the spec: `CANDataSource::extractTimestamp`
(CANDataSource.cpp is not in the snapshot).  Section 4.3: the configured
strategy selects the kernel software or hardware timestamp out of the
ancillary metadata (here `swTimestamp` / `hwTimestamp`, `none` when the
control message is absent), and any selected value of zero — including the
polling strategy's constant zero — falls back to the wall-clock poll time of
the read. -/
def extractTimestamp (strategy : CAN_TIMESTAMP_TYPE)
    (swTimestamp hwTimestamp : Option Nat) (pollTime : Nat) : Nat :=
  let selected :=
    match strategy with
    | CAN_TIMESTAMP_TYPE.KERNEL_SOFTWARE_TIMESTAMP => swTimestamp.getD 0
    | CAN_TIMESTAMP_TYPE.KERNEL_HARDWARE_TIMESTAMP => hwTimestamp.getD 0
    | CAN_TIMESTAMP_TYPE.POLLING_TIME => 0
  if selected = 0 then pollTime else selected

/-! ## Acquisition gate and loop -/

/-- A raw-frame record as produced per received frame (section 3):
identifier with the marker bit folded in, payload bytes, reception
timestamp. -/
structure RawFrameRecord where
  id : Nat
  payload : List Nat
  timestamp : Nat
deriving DecidableEq

/-- Outcome of the per-frame gate check. -/
inductive GateOutcome
  | enqueue
  | discardSleeping
  | discardStale
deriving DecidableEq

/-- Modelled from the spec: the gate check of `doWork` (CANDataSource.cpp is
not in the snapshot).  Section 4.4: if sleeping, discard; else if the
record's timestamp is strictly before the resume watermark, discard as
stale; else enqueue. -/
def gateCheck (sleeping : Bool) (resumeTime ts : Nat) : GateOutcome :=
  if sleeping then GateOutcome.discardSleeping
  else if ts < resumeTime then GateOutcome.discardStale
  else GateOutcome.enqueue

/-- The worker-visible state of one data source while connected: the
`mShouldSleep` flag, the `mResumeTime` watermark, the bounded Output Sink
(contents and capacity) and the `receivedMessages` / `discardedMessages`
counters of CANDataSource.h lines 110-121. -/
structure LoopState where
  sleeping : Bool
  resumeTime : Nat
  capacity : Nat
  sink : List RawFrameRecord
  receivedMessages : Nat
  discardedMessages : Nat
deriving DecidableEq

/-- Modelled from the spec: the per-frame body of `doWork` (CANDataSource.cpp
is not in the snapshot).  Section 4.2 steps 4-6: the frame is read (the
received counter increments), the gate is checked, and on `enqueue` the
record goes to the sink by a non-blocking push that drops the record when
the sink is full.  The returned Bool records whether the gate routed the
record to the sink's push (true exactly on `GateOutcome.enqueue`). -/
def processFrame (s : LoopState) (r : RawFrameRecord) : LoopState × Bool :=
  let s1 := { s with receivedMessages := s.receivedMessages + 1 }
  match gateCheck s.sleeping s.resumeTime r.timestamp with
  | GateOutcome.discardSleeping =>
      ({ s1 with discardedMessages := s1.discardedMessages + 1 }, false)
  | GateOutcome.discardStale =>
      ({ s1 with discardedMessages := s1.discardedMessages + 1 }, false)
  | GateOutcome.enqueue =>
      if s1.sink.length < s1.capacity then
        ({ s1 with sink := s1.sink ++ [r] }, true)
      else
        ({ s1 with discardedMessages := s1.discardedMessages + 1 }, true)

/-- Modelled from the spec: section 4.2 step 3 — one wake reads at most
`PARALLEL_RECEIVED_FRAMES_FROM_KERNEL` frames from the kernel queue. -/
def readBatch (kernelQueue : List RawFrameRecord) : List RawFrameRecord :=
  kernelQueue.take PARALLEL_RECEIVED_FRAMES_FROM_KERNEL

/-- The loop state right after `connect()`: section 4.1 — the engine enters
Connected-Sleeping, so `mShouldSleep` is true, the watermark is its initial
zero and the sink is empty. -/
def connectInitialState (capacity : Nat) : LoopState :=
  { sleeping := true
    resumeTime := 0
    capacity := capacity
    sink := []
    receivedMessages := 0
    discardedMessages := 0 }

/-- Modelled from the spec: the acquisition loop run over a sequence of
received frames, no suspend/resume interleaved. -/
def runFrames (s : LoopState) : List RawFrameRecord → LoopState
  | [] => s
  | r :: rs => runFrames (processFrame s r).1 rs

/-! ## Identity allocation -/

/-- Modelled from the spec: section 4.5 — the process-wide identity counter
is incremented atomically at each construction and the new value is the
instance's SourceIdentity.  Takes the counter, returns (identity, new
counter). -/
def nextSourceId (counter : Nat) : Nat × Nat :=
  (counter + 1, counter + 1)

/-- Modelled from the spec: constructing `n` data sources in sequence from a
counter value `c` (the atomic counter linearizes concurrent constructions
into such a sequence); returns the list of allocated identities and the
final counter. -/
def constructSources : Nat → Nat → List Nat × Nat
  | 0, c => ([], c)
  | n + 1, c =>
      let p := nextSourceId c
      let q := constructSources n p.2
      (p.1 :: q.1, q.2)

/-! ## Lifecycle state machine -/

/-- The engine states of section 3 (EngineState). -/
inductive EngineState
  | Uninitialized
  | Initialized
  | ConnectedSleeping
  | ConnectedAcquiring
  | Disconnected
deriving DecidableEq

/-- Whether a state is one of the two Connected states. -/
def EngineState.isConnected : EngineState → Bool
  | EngineState.ConnectedSleeping => true
  | EngineState.ConnectedAcquiring => true
  | _ => false

/-- A vehicle data-source configuration as the tests build it
(CANDataSourceTest.cpp lines 179-184): a string-keyed property map plus the
surrounding output capacity; the capacity is `none` when the surrounding
configuration does not provide it. -/
structure VehicleDataSourceConfig where
  transportProperties : List (String × String)
  maxNumberOfVehicleDataMessages : Option Nat
deriving DecidableEq

/-- Lookup of a key in the property map. -/
def lookupProp (props : List (String × String)) (key : String) : Option String :=
  (props.find? (fun p => p.1 = key)).map Prod.snd

/-- The resolved configuration of section 3 (SourceConfig). -/
structure SourceConfig where
  interfaceName : String
  forceCanFD : Bool
  idleTimeMs : Nat
  capacity : Nat
deriving DecidableEq

def keyInterfaceName : String := "interfaceName"

def keyProtocolName : String := "protocolName"

def keyThreadIdleTimeMs : String := "threadIdleTimeMs"

def protocolCAN : String := "CAN"

def protocolCANFD : String := "CAN-FD"

def strHardware : String := "Hardware"

def ifaceVcan0 : String := "vcan0"

def idle100 : String := "100"

/-- Modelled from the spec: the validation step of `init` (CANDataSource.cpp
is not in the snapshot).  Sections 4.1 and 6: interface name and protocol
tag are required, the protocol tag must be CAN or CAN-FD, the output
capacity is required from the surrounding configuration; the idle-slice
override is optional and defaults to `DEFAULT_THREAD_IDLE_TIME_MS`. -/
def parseSourceConfig (cfg : VehicleDataSourceConfig) : Option SourceConfig :=
  match lookupProp cfg.transportProperties keyInterfaceName,
      lookupProp cfg.transportProperties keyProtocolName,
      cfg.maxNumberOfVehicleDataMessages with
  | some ifName, some proto, some cap =>
      if proto = protocolCAN ∨ proto = protocolCANFD then
        some
          { interfaceName := ifName
            forceCanFD := proto = protocolCANFD
            idleTimeMs :=
              ((lookupProp cfg.transportProperties keyThreadIdleTimeMs).bind
                String.toNat?).getD DEFAULT_THREAD_IDLE_TIME_MS
            capacity := cap }
      else none
  | _, _, _ => none

/-- The configuration the tests build (CANDataSourceTest.cpp lines
179-183). -/
def goodTestConfig : VehicleDataSourceConfig :=
  { transportProperties :=
      [(keyInterfaceName, ifaceVcan0), (keyProtocolName, protocolCAN),
       (keyThreadIdleTimeMs, idle100)]
    maxNumberOfVehicleDataMessages := some 1000 }

/-- A configuration missing every required field. -/
def emptyTestConfig : VehicleDataSourceConfig :=
  { transportProperties := [], maxNumberOfVehicleDataMessages := none }

/-- The façade's observable state: lifecycle state, retained configuration,
transport and worker status, and how many connect / disconnect
notifications the listeners received. -/
structure Engine where
  state : EngineState
  config : Option SourceConfig
  socketOpen : Bool
  workerRunning : Bool
  connectNotifications : Nat
  disconnectNotifications : Nat
deriving DecidableEq

/-- The engine as constructed, before any lifecycle call. -/
def freshEngine : Engine :=
  { state := EngineState.Uninitialized
    config := none
    socketOpen := false
    workerRunning := false
    connectNotifications := 0
    disconnectNotifications := 0 }

/-- Modelled from the spec: `init` (CANDataSource.cpp is not in the
snapshot).  Section 4.1: it uses the first configuration; on valid
configuration it retains it, transitions to Initialized and returns success;
on any missing or invalid required field it returns failure with no state
change and no partial configuration retained. -/
def Engine.init (e : Engine) (configs : List VehicleDataSourceConfig) :
    Bool × Engine :=
  match configs with
  | [] => (false, e)
  | cfg :: _ =>
      match parseSourceConfig cfg with
      | none => (false, e)
      | some sc =>
          (true, { e with state := EngineState.Initialized, config := some sc })

/-- Modelled from the spec: `connect` (CANDataSource.cpp is not in the
snapshot).  Section 4.1: only valid from Initialized or Disconnected;
`setupOk` abstracts the socket open/option/index/bind steps, whose failure
leaves the engine unchanged; on success the worker is spawned, the state
becomes Connected-Sleeping and listeners are notified once. -/
def Engine.connect (e : Engine) (setupOk : Bool) : Bool × Engine :=
  if (e.state = EngineState.Initialized ∨ e.state = EngineState.Disconnected)
      ∧ setupOk = true then
    (true,
      { e with
          state := EngineState.ConnectedSleeping
          socketOpen := true
          workerRunning := true
          connectNotifications := e.connectNotifications + 1 })
  else
    (false, e)

/-- Modelled from the spec: `disconnect` (CANDataSource.cpp is not in the
snapshot).  Section 4.1: only valid from a Connected state, in which case it
stops and joins the worker, closes the transport, transitions to
Disconnected and notifies listeners once; called while not connected it
returns failure with no side effects. -/
def Engine.disconnect (e : Engine) : Bool × Engine :=
  if e.state.isConnected then
    (true,
      { e with
          state := EngineState.Disconnected
          socketOpen := false
          workerRunning := false
          disconnectNotifications := e.disconnectNotifications + 1 })
  else
    (false, e)

/-! ## Helper lemmas -/

theorem constructSources_mem_gt (n : Nat) :
    ∀ c x, x ∈ (constructSources n c).1 → c < x := by
  induction n with
  | zero =>
      intro c x hx
      simp [constructSources] at hx
  | succ n ih =>
      intro c x hx
      simp [constructSources, nextSourceId] at hx
      rcases hx with rfl | hx
      · omega
      · have := ih (c + 1) x hx
        omega

theorem constructSources_pairwise (n : Nat) :
    ∀ c, ((constructSources n c).1).Pairwise (· < ·) := by
  induction n with
  | zero =>
      intro c
      simp [constructSources]
  | succ n ih =>
      intro c
      simp only [constructSources, nextSourceId, List.pairwise_cons]
      exact ⟨fun x hx => constructSources_mem_gt n (c + 1) x hx, ih (c + 1)⟩

theorem constructSources_length (n : Nat) :
    ∀ c, ((constructSources n c).1).length = n := by
  induction n with
  | zero =>
      intro c
      simp [constructSources]
  | succ n ih =>
      intro c
      simp [constructSources, nextSourceId, ih]

/-! ## Claim theorems -/

/-- Claim C3: source identities are allocated from a process-wide
monotonically increasing counter incremented atomically at each
construction, so every set of instances constructed in one process gets
pairwise-distinct identity values. -/
theorem source_ids_pairwise_distinct (n c : Nat) :
    ((constructSources n c).1).Nodup ∧ ((constructSources n c).1).length = n := by
  refine ⟨List.Pairwise.imp ?_ (constructSources_pairwise n c),
    constructSources_length n c⟩
  intro a b hab
  omega

/-- Claim C3 witness: five constructions from the initial counter report
five pairwise-distinct identities. -/
theorem source_ids_pairwise_distinct_witness :
    ((constructSources 5 0).1).Nodup ∧ ((constructSources 5 0).1).length = 5 :=
  source_ids_pairwise_distinct 5 0

/-- Claim C5 counterexample: the C++ `CANDecodedSignal` constructor stores
the physical value and the signal-level kind independently, so a signal
whose signal-level kind is DOUBLE can enclose a physical value recorded as
UINT64 — the enclosing kind does not always equal the enclosed one. -/
theorem decoded_signal_kind_mismatch_cex :
    (CANDecodedSignal.mk 0 0 (mkCANPhysicalValueType 0 SignalType.UINT64)
        SignalType.DOUBLE).mSignalType ≠
      (CANDecodedSignal.mk 0 0 (mkCANPhysicalValueType 0 SignalType.UINT64)
        SignalType.DOUBLE).mPhysicalValue.getType := by
  decide

/-- Claim C5 (amended): constructing a CANPhysicalValueType with kind UINT64
stores the unsigned member, with kind INT64 the signed member, and otherwise
the floating-point member, and getType() returns the kind given at
construction; the kind on the enclosing CANDecodedSignal is an independent
constructor argument and equals the kind inside the physical value exactly
when the caller passes matching kinds. -/
theorem decoded_signal_kind_agreement (val : Int) (type : SignalType)
    (sid : Nat) (raw : Int) (st : SignalType) :
    (mkCANPhysicalValueType val type).getType = type ∧
    memberKind (mkCANPhysicalValueType val type).signalValue = type ∧
    ((CANDecodedSignal.mk sid raw (mkCANPhysicalValueType val type) st).mSignalType =
        (CANDecodedSignal.mk sid raw
          (mkCANPhysicalValueType val type) st).mPhysicalValue.getType ↔
      st = type) := by
  cases type <;>
    simp [mkCANPhysicalValueType, CANPhysicalValueType.getType, memberKind]

/-- Claim C9: one wake of the acquisition loop reads at most the fixed
batch bound of frames, and that bound is 10. -/
theorem batch_read_bounded (kernelQueue : List RawFrameRecord) :
    (readBatch kernelQueue).length ≤ PARALLEL_RECEIVED_FRAMES_FROM_KERNEL ∧
    PARALLEL_RECEIVED_FRAMES_FROM_KERNEL = 10 := by
  constructor
  · simp [readBatch]
  · rfl

/-- Claim C10: stringToCanTimestampType returns true exactly on the inputs
Software, Hardware and Polling, setting the out-parameter to the kernel
software, kernel hardware and polling timestamp type respectively; on every
other input it returns false and leaves the out-parameter unmodified. -/
theorem string_to_can_timestamp_type_spec (s : String)
    (out : CAN_TIMESTAMP_TYPE) :
    ((stringToCanTimestampType s out).1 = true ↔
      (s = "Software" ∨ s = "Hardware" ∨ s = "Polling")) ∧
    (s = "Software" →
      (stringToCanTimestampType s out).2 =
        CAN_TIMESTAMP_TYPE.KERNEL_SOFTWARE_TIMESTAMP) ∧
    (s = "Hardware" →
      (stringToCanTimestampType s out).2 =
        CAN_TIMESTAMP_TYPE.KERNEL_HARDWARE_TIMESTAMP) ∧
    (s = "Polling" →
      (stringToCanTimestampType s out).2 = CAN_TIMESTAMP_TYPE.POLLING_TIME) ∧
    ((stringToCanTimestampType s out).1 = false →
      (stringToCanTimestampType s out).2 = out) := by
  by_cases h1 : s = "Software" <;> by_cases h2 : s = "Hardware" <;>
    by_cases h3 : s = "Polling" <;>
    simp_all [stringToCanTimestampType]

/-- Claim C10 witness: the parser maps Hardware to the kernel hardware
timestamp type and returns true there. -/
theorem string_to_can_timestamp_type_spec_witness :
    (stringToCanTimestampType strHardware CAN_TIMESTAMP_TYPE.POLLING_TIME).2 =
      CAN_TIMESTAMP_TYPE.KERNEL_HARDWARE_TIMESTAMP ∧
    (stringToCanTimestampType strHardware CAN_TIMESTAMP_TYPE.POLLING_TIME).1 =
      true :=
  ⟨(string_to_can_timestamp_type_spec strHardware
      CAN_TIMESTAMP_TYPE.POLLING_TIME).2.2.1 rfl,
   (string_to_can_timestamp_type_spec strHardware
      CAN_TIMESTAMP_TYPE.POLLING_TIME).1.mpr (Or.inr (Or.inl rfl))⟩

/-- Claim C8: disconnect while not connected returns failure and changes
nothing; disconnect from a Connected state returns success, stops the
worker, closes the transport, transitions to Disconnected and notifies the
listeners once. -/
theorem disconnect_requires_connected (e : Engine) :
    (e.state.isConnected = false → e.disconnect = (false, e)) ∧
    (e.state.isConnected = true →
      (e.disconnect).1 = true ∧
      (e.disconnect).2.state = EngineState.Disconnected ∧
      (e.disconnect).2.socketOpen = false ∧
      (e.disconnect).2.workerRunning = false ∧
      (e.disconnect).2.disconnectNotifications =
        e.disconnectNotifications + 1) := by
  cases h : e.state.isConnected <;> simp [Engine.disconnect, h]

/-- Claim C8 witness: disconnect on a freshly constructed engine fails and
leaves it unchanged. -/
theorem disconnect_requires_connected_witness :
    freshEngine.disconnect = (false, freshEngine) :=
  (disconnect_requires_connected freshEngine).1 rfl

/-- Claim C1: per frame processed while connected, the record is routed to
the Output Sink's non-blocking push exactly when the sleeping flag is false
and the record's timestamp is not strictly before the resume watermark; the
frame is always read first (the received counter increments), a sleeping
gate discards it, and a timestamp strictly before the watermark discards it
as stale. -/
theorem gate_push_iff_awake_and_fresh (s : LoopState) (r : RawFrameRecord) :
    ((processFrame s r).2 = true ↔
      (s.sleeping = false ∧ ¬ r.timestamp < s.resumeTime)) ∧
    ((processFrame s r).1).receivedMessages = s.receivedMessages + 1 ∧
    (s.sleeping = true →
      (processFrame s r).1.sink = s.sink ∧
      (processFrame s r).1.discardedMessages = s.discardedMessages + 1) ∧
    (s.sleeping = false → r.timestamp < s.resumeTime →
      (processFrame s r).1.sink = s.sink ∧
      (processFrame s r).1.discardedMessages = s.discardedMessages + 1) ∧
    (s.sleeping = false → ¬ r.timestamp < s.resumeTime →
      s.sink.length < s.capacity →
      (processFrame s r).1.sink = s.sink ++ [r]) := by
  cases hs : s.sleeping <;>
    by_cases hlt : r.timestamp < s.resumeTime <;>
    by_cases hc : s.sink.length < s.capacity <;>
    simp [processFrame, gateCheck, hs, hlt, hc]

/-- Claim C1 witness: an awake gate with watermark 5 routes a frame
timestamped 7 to the sink. -/
theorem gate_push_iff_awake_and_fresh_witness :
    (processFrame
        { sleeping := false, resumeTime := 5, capacity := 3, sink := [],
          receivedMessages := 0, discardedMessages := 0 }
        { id := 0x123, payload := [0, 1, 2], timestamp := 7 }).2 = true :=
  (gate_push_iff_awake_and_fresh
      { sleeping := false, resumeTime := 5, capacity := 3, sink := [],
        receivedMessages := 0, discardedMessages := 0 }
      { id := 0x123, payload := [0, 1, 2], timestamp := 7 }).1.mpr
    ⟨rfl, by decide⟩

theorem runFrames_asleep (frames : List RawFrameRecord) :
    ∀ s : LoopState, s.sleeping = true →
      (runFrames s frames).sink = s.sink ∧
      (runFrames s frames).receivedMessages =
        s.receivedMessages + frames.length ∧
      (runFrames s frames).sleeping = true := by
  induction frames with
  | nil =>
      intro s hs
      exact ⟨rfl, rfl, hs⟩
  | cons r rs ih =>
      intro s hs
      have hstep : (processFrame s r).1.sink = s.sink ∧
          (processFrame s r).1.receivedMessages = s.receivedMessages + 1 ∧
          (processFrame s r).1.sleeping = true := by
        simp [processFrame, gateCheck, hs]
      obtain ⟨ha, hb, hc⟩ := ih (processFrame s r).1 hstep.2.2
      refine ⟨?_, ?_, hc⟩
      · show (runFrames (processFrame s r).1 rs).sink = s.sink
        rw [ha, hstep.1]
      · show (runFrames (processFrame s r).1 rs).receivedMessages =
          s.receivedMessages + (r :: rs).length
        rw [hb, hstep.2.1]
        simp
        omega

/-- Claim C6: after a fresh connect the engine is Connected-Sleeping, and
before any resume the loop reads (drains) every frame from the socket while
the sink stays empty. -/
theorem fresh_connect_sink_stays_empty (capacity : Nat)
    (frames : List RawFrameRecord) :
    ((Engine.connect { freshEngine with state := EngineState.Initialized }
        true).2.state = EngineState.ConnectedSleeping) ∧
    (connectInitialState capacity).sleeping = true ∧
    (runFrames (connectInitialState capacity) frames).sink = [] ∧
    (runFrames (connectInitialState capacity) frames).receivedMessages =
      frames.length := by
  have h := runFrames_asleep frames (connectInitialState capacity) rfl
  refine ⟨by simp [Engine.connect, freshEngine], rfl, h.1, ?_⟩
  rw [h.2.1]
  simp [connectInitialState]

/-- Claim C4: under a kernel timestamp strategy, absent or zero ancillary
metadata makes the frame's timestamp fall back to the poll time, which is
then nonzero whenever the poll clock is; nonzero metadata is used as is. -/
theorem kernel_timestamp_fallback_to_poll (sw hw : Option Nat)
    (pollTime : Nat) :
    ((sw = none ∨ sw = some 0) →
      extractTimestamp CAN_TIMESTAMP_TYPE.KERNEL_SOFTWARE_TIMESTAMP
        sw hw pollTime = pollTime) ∧
    (∀ v, v ≠ 0 → sw = some v →
      extractTimestamp CAN_TIMESTAMP_TYPE.KERNEL_SOFTWARE_TIMESTAMP
        sw hw pollTime = v) ∧
    ((hw = none ∨ hw = some 0) →
      extractTimestamp CAN_TIMESTAMP_TYPE.KERNEL_HARDWARE_TIMESTAMP
        sw hw pollTime = pollTime) ∧
    (∀ v, v ≠ 0 → hw = some v →
      extractTimestamp CAN_TIMESTAMP_TYPE.KERNEL_HARDWARE_TIMESTAMP
        sw hw pollTime = v) ∧
    (0 < pollTime →
      extractTimestamp CAN_TIMESTAMP_TYPE.KERNEL_SOFTWARE_TIMESTAMP
        sw hw pollTime ≠ 0 ∧
      extractTimestamp CAN_TIMESTAMP_TYPE.KERNEL_HARDWARE_TIMESTAMP
        sw hw pollTime ≠ 0) := by
  refine ⟨?_, ?_, ?_, ?_, ?_⟩
  · rintro (rfl | rfl) <;> simp [extractTimestamp]
  · rintro v hv rfl
    simp [extractTimestamp, hv]
  · rintro (rfl | rfl) <;> simp [extractTimestamp]
  · rintro v hv rfl
    simp [extractTimestamp, hv]
  · intro hp
    constructor <;>
      · simp only [extractTimestamp]
        split
        · omega
        · assumption

/-- Claim C4 witness: with absent software metadata the software strategy
falls back to the poll time 42; nonzero hardware metadata 5 is used as is;
the fallback is nonzero. -/
theorem kernel_timestamp_fallback_to_poll_witness :
    extractTimestamp CAN_TIMESTAMP_TYPE.KERNEL_SOFTWARE_TIMESTAMP
      none (some 5) 42 = 42 ∧
    extractTimestamp CAN_TIMESTAMP_TYPE.KERNEL_HARDWARE_TIMESTAMP
      none (some 5) 42 = 5 ∧
    extractTimestamp CAN_TIMESTAMP_TYPE.KERNEL_SOFTWARE_TIMESTAMP
      none (some 5) 42 ≠ 0 :=
  ⟨(kernel_timestamp_fallback_to_poll none (some 5) 42).1 (Or.inl rfl),
   (kernel_timestamp_fallback_to_poll none (some 5) 42).2.2.2.1 5
     (by decide) rfl,
   ((kernel_timestamp_fallback_to_poll none (some 5) 42).2.2.2.2
     (by decide)).1⟩

theorem parseSourceConfig_missing (cfg : VehicleDataSourceConfig)
    (h : lookupProp cfg.transportProperties keyInterfaceName = none ∨
      lookupProp cfg.transportProperties keyProtocolName = none ∨
      cfg.maxNumberOfVehicleDataMessages = none) :
    parseSourceConfig cfg = none := by
  cases h1 : lookupProp cfg.transportProperties keyInterfaceName <;>
    cases h2 : lookupProp cfg.transportProperties keyProtocolName <;>
    cases h3 : cfg.maxNumberOfVehicleDataMessages <;>
    simp_all [parseSourceConfig]

/-- Claim C7: a missing required configuration field (interface name,
protocol tag, output capacity) makes init fail with the engine unchanged —
still Uninitialized, no configuration retained; on a valid configuration it
succeeds and transitions Uninitialized to Initialized. -/
theorem init_validates_required_fields
    (configs : List VehicleDataSourceConfig) :
    ((freshEngine.init configs).1 = false →
      (freshEngine.init configs).2 = freshEngine) ∧
    ((freshEngine.init configs).1 = true →
      (freshEngine.init configs).2.state = EngineState.Initialized) ∧
    ((freshEngine.init configs).1 = false →
      (freshEngine.init configs).2.state = EngineState.Uninitialized ∧
      (freshEngine.init configs).2.config = none) ∧
    (∀ cfg rest, configs = cfg :: rest →
      (lookupProp cfg.transportProperties keyInterfaceName = none ∨
       lookupProp cfg.transportProperties keyProtocolName = none ∨
       cfg.maxNumberOfVehicleDataMessages = none) →
      (freshEngine.init configs).1 = false) := by
  cases configs with
  | nil =>
      refine ⟨fun _ => rfl, ?_, fun _ => ⟨rfl, rfl⟩, ?_⟩
      · intro h
        simp [Engine.init] at h
      · intro cfg rest hcr
        simp at hcr
  | cons cfg rest =>
      cases hp : parseSourceConfig cfg with
      | none =>
          refine ⟨fun _ => ?_, fun h => ?_, fun _ => ?_, ?_⟩
          · simp [Engine.init, hp]
          · simp [Engine.init, hp] at h
          · constructor <;> simp [Engine.init, hp, freshEngine]
          · intro _ _ _ _
            simp [Engine.init, hp]
      | some sc =>
          refine ⟨fun h => ?_, fun _ => ?_, fun h => ?_, ?_⟩
          · simp [Engine.init, hp] at h
          · simp [Engine.init, hp]
          · simp [Engine.init, hp] at h
          · intro cfg2 rest2 heq hmiss
            injection heq with h1 h2
            subst h1
            rw [parseSourceConfig_missing cfg hmiss] at hp
            simp at hp

/-- Claim C7 witness: the test's configuration initializes the fresh engine
to Initialized; a configuration missing every required field leaves it
unchanged. -/
theorem init_validates_required_fields_witness :
    (freshEngine.init [goodTestConfig]).1 = true ∧
    (freshEngine.init [goodTestConfig]).2.state = EngineState.Initialized ∧
    (freshEngine.init [emptyTestConfig]).2 = freshEngine := by
  have hg := init_validates_required_fields [goodTestConfig]
  have hb := init_validates_required_fields [emptyTestConfig]
  have h1 : (freshEngine.init [goodTestConfig]).1 = true := by decide
  exact ⟨h1, hg.2.1 h1,
    hb.1 (hb.2.2.2 emptyTestConfig [] rfl (Or.inl rfl))⟩

theorem and_two_pow_ne_zero_iff (w n : Nat) :
    w &&& 2 ^ n ≠ 0 ↔ w.testBit n = true := by
  constructor
  · intro h
    obtain ⟨i, hi⟩ := Nat.ne_zero_implies_bit_true h
    have hi2 : ((w &&& 2 ^ n).testBit i) = true := hi
    rw [Nat.testBit_and, Nat.testBit_two_pow] at hi2
    have hi3 : w.testBit i = true ∧ n = i := by simpa using hi2
    rw [hi3.2]
    exact hi3.1
  · intro h hzero
    have hb : (w &&& 2 ^ n).testBit n = true := by
      rw [Nat.testBit_and, Nat.testBit_two_pow]
      simp [h]
    rw [hzero] at hb
    simp at hb

/-- Claim C2: the record identifier carries the wire identifier with
control bits masked off — its top marker bit is set exactly when the wire
extended-identifier flag was set, the identifier bits below the mask width
are preserved and the remaining bits are clear — and on the wire values of
the tests, 0x123 with the extended flag yields 0x80000123 while an
unflagged 0x123 stays 0x123. -/
theorem extract_frame_id_extended_flag (w : Nat) :
    ((extractFrameId w).testBit 31 = w.testBit 31) ∧
    (w.testBit 31 = true → ∀ i, i < 29 →
      (extractFrameId w).testBit i = w.testBit i) ∧
    (w.testBit 31 = false → ∀ i, i < 11 →
      (extractFrameId w).testBit i = w.testBit i) ∧
    (w.testBit 31 = false → ∀ i, 11 ≤ i →
      (extractFrameId w).testBit i = false) ∧
    extractFrameId (0x123 ||| CAN_EFF_FLAG) = 0x80000123 ∧
    extractFrameId 0x123 = 0x123 := by
  have hflagdef : CAN_EFF_FLAG = 2 ^ 31 := by norm_num [CAN_EFF_FLAG]
  have hmaskE : CAN_EFF_MASK = 2 ^ 29 - 1 := by norm_num [CAN_EFF_MASK]
  have hmaskS : CAN_SFF_MASK = 2 ^ 11 - 1 := by norm_num [CAN_SFF_MASK]
  have hcond_iff : (w &&& CAN_EFF_FLAG ≠ 0) ↔ w.testBit 31 = true := by
    rw [hflagdef]
    exact and_two_pow_ne_zero_iff w 31
  have hE : ∀ i, Nat.testBit CAN_EFF_MASK i = decide (i < 29) := by
    intro i
    rw [hmaskE]
    exact Nat.testBit_two_pow_sub_one 29 i
  have hS : ∀ i, Nat.testBit CAN_SFF_MASK i = decide (i < 11) := by
    intro i
    rw [hmaskS]
    exact Nat.testBit_two_pow_sub_one 11 i
  have hF : ∀ i, Nat.testBit CAN_EFF_FLAG i = decide (31 = i) := by
    intro i
    rw [hflagdef]
    exact Nat.testBit_two_pow
  refine ⟨?_, ?_, ?_, ?_, by decide, by decide⟩
  · by_cases hb : w.testBit 31 = true
    · rw [extractFrameId, if_pos (hcond_iff.mpr hb)]
      simp only [Nat.testBit_or, Nat.testBit_and, hE, hF]
      simp [hb]
    · have hb2 : w.testBit 31 = false := by
        cases hw : w.testBit 31
        · rfl
        · exact absurd hw hb
      rw [extractFrameId, if_neg (fun hc => hb (hcond_iff.mp hc))]
      simp only [Nat.testBit_and, hS]
      simp [hb2]
  · intro hb i hi
    have h31 : ¬(31 = i) := by omega
    rw [extractFrameId, if_pos (hcond_iff.mpr hb)]
    simp only [Nat.testBit_or, Nat.testBit_and, hE, hF]
    cases hw : w.testBit i <;> simp [hw, hi, h31]
  · intro hb i hi
    have hne : ¬ w &&& CAN_EFF_FLAG ≠ 0 := fun hc => by
      rw [hcond_iff.mp hc] at hb
      cases hb
    rw [extractFrameId, if_neg hne]
    simp only [Nat.testBit_and, hS]
    cases hw : w.testBit i <;> simp [hw, hi]
  · intro hb i hi
    have hi11 : ¬(i < 11) := by omega
    have hne : ¬ w &&& CAN_EFF_FLAG ≠ 0 := fun hc => by
      rw [hcond_iff.mp hc] at hb
      cases hb
    rw [extractFrameId, if_neg hne]
    simp only [Nat.testBit_and, hS]
    simp [hi11]

/-- Claim C2 witness: at the extended test frame 0x80000123 the marker bit
of the extracted identifier mirrors the wire flag bit. -/
theorem extract_frame_id_extended_flag_witness :
    (extractFrameId 0x80000123).testBit 31 = (0x80000123 : Nat).testBit 31 ∧
    extractFrameId 0x123 = 0x123 :=
  ⟨(extract_frame_id_extended_flag 0x80000123).1,
   (extract_frame_id_extended_flag 0x80000123).2.2.2.2.2⟩

end FleetWise
